import Mathlib

/-!
Shallow embedding of `src/main.c` (standalone NightOwl dual-lane filament
feeder firmware).

Modelling conventions:
* `absolute_time_t` is microseconds since boot, embedded as `Nat`;
  `absolute_time_diff_us(a, b) = b - a` is computed in `Int` where the C code
  compares signed differences.
* One iteration of the `while (true)` control loop (lines 384-530) is one
  `tick`.  Within a tick every `get_absolute_time()` call is identified with
  the `now` sampled at the top of the loop (the loop body runs in
  microseconds; all claims are about tick-level behaviour).
* The debounced input layer (`din_t`, lines 94-131) is modelled separately
  (`Din`, `din_update`).  The control-loop model takes the debounced logical
  booleans (`l1_in_present`, ..., lines 397-410) directly as the tick input,
  exactly the values the rest of the loop body consumes.
* GPIO writes are modelled by the state they encode: `Lane.motor_enabled`
  records the stepper enable line (`stepper_enable`), step pulses are pure
  side effects with no feedback and are not tracked.
* Float-valued config constants are evaluated as the C compiler does:
  `LOW_DELAY_S * 1000000 = 400000`, `SWAP_COOLDOWN_S * 1000 = 500`,
  `AUTOLOAD_TIMEOUT_S * 1000000 = 6000000`, `DEBOUNCE_MS * 1000 = 10000`.
* Compile-time switches as configured: `USE_FEED_POT = 1`,
  `REQUIRE_Y_CLEAR_FOR_SWAP = 1`, `EN_ACTIVE_LOW = 1`.
-/

-- ---------------------------------------------------------------- constants

def DEBOUNCE_US : Nat := 10000
def LOW_DELAY_US : Int := 400000
def SWAP_COOLDOWN_US : Nat := 500000
def AUTOLOAD_TIMEOUT_US : Nat := 6000000
def POT_READ_PERIOD_US : Nat := 50000
def FEED_SPS_MIN : Nat := 1000
def FEED_SPS_MAX : Nat := 9000
def REV_STEPS_PER_SEC : Nat := 4000
def AUTOLOAD_STEPS_PER_SEC : Nat := 5000
def STEP_PULSE_US : Nat := 3

/-- Predicate `time_reached(t)`: `absolute_time_diff_us(get_absolute_time(), t) <= 0`
(main.c lines 82-84), with `now` passed explicitly. -/
def time_reached (t now : Nat) : Bool := decide ((t : Int) - (now : Int) ≤ 0)


/-- Helper `clamp_i` (main.c lines 86-90), on `Nat` (all call sites are nonnegative). -/
def clamp_i (v lo hi : Nat) : Nat := if v < lo then lo else if v > hi then hi else v

-- ------------------------------------------------------- debounced input

/-- Structure `din_t` (main.c lines 94-99): the `pin` binding is dropped, the raw
reading is an input of `din_update` instead. -/
structure Din where
  stable : Bool
  last_raw : Bool
  last_edge : Nat
deriving DecidableEq, Repr

/-- Constructor `din_init` (main.c lines 101-111). -/
def din_init (raw : Bool) (now : Nat) : Din :=
  { stable := raw, last_raw := raw, last_edge := now }

/-- Update `din_update` (main.c lines 113-127): record a raw edge, then commit the
raw value once it has been steady for `DEBOUNCE_MS * 1000` microseconds. -/
def din_update (d : Din) (raw : Bool) (now : Nat) : Din :=
  let d1 := if raw != d.last_raw then { d with last_raw := raw, last_edge := now } else d
  if raw != d1.stable ∧ (now : Int) - (d1.last_edge : Int) ≥ (DEBOUNCE_US : Int)
  then { d1 with stable := raw } else d1

/-- Fold `din_update` over a list of `(raw reading, time)` samples. -/
def din_run (d : Din) (l : List (Bool × Nat)) : Din :=
  l.foldl (fun d p => din_update d p.1 p.2) d

/-- Decidable rendering of "every transition in the sample sequence is held
for less than the debounce window": at each sample whose raw value differs
from the committed value `b`, the sample time is within the window of the
last raw change (`last_edge` after that sample's edge bookkeeping). -/
def short_ok (b : Bool) (d : Din) : List (Bool × Nat) → Bool
  | [] => true
  | (r, t) :: q =>
      let d1 := din_update d r t
      (r == b || decide ((t : Int) - (d1.last_edge : Int) < (DEBOUNCE_US : Int))) && short_ok b d1 q

-- ------------------------------------------------------------------ lane

/-- Enumeration `task_mode_t` (main.c lines 232-237). -/
inductive TaskMode where
  | idle
  | autoload
  | feed
  | manual
deriving DecidableEq, Repr

/-- Structure `lane_t` (main.c lines 239-252).  The two `din_t` members live in the
tick input (debounced booleans); the `stepper_t` member is summarised by the
state of its enable line, `motor_enabled`. -/
structure Lane where
  mode : TaskMode
  prev_in_present : Bool
  next_step : Nat
  autoload_deadline : Nat
  steps_per_sec : Nat
  forward : Bool
  motor_enabled : Bool
deriving DecidableEq, Repr

/-- Constructor `lane_init` (main.c lines 257-271); `stepper_init` leaves the enable line
de-asserted (line 151, `EN_ACTIVE_LOW`). -/
def lane_init (t0 : Nat) : Lane :=
  { mode := .idle
    prev_in_present := false
    next_step := t0
    autoload_deadline := t0
    steps_per_sec := 0
    forward := true
    motor_enabled := false }

/-- Cadence `step_interval_us` (main.c lines 273-279): `1000000/sps - STEP_PULSE_US`
floored at 10 (for `sps = 0` the C guard `sps <= 0` returns 1000000; all call
sites pass nonnegative rates). -/
def step_interval_us (sps : Nat) : Nat :=
  if sps = 0 then 1000000
  else
    let adj : Int := (1000000 / sps : Nat) - (STEP_PULSE_US : Int)
    (if adj < 10 then 10 else adj).toNat

/-- Task start `lane_start_task` (main.c lines 281-293), with the timeout already in
microseconds (`(int64_t)(timeout_s * 1000000)` at the call sites). -/
def lane_start_task (L : Lane) (mode : TaskMode) (sps : Nat) (forward : Bool)
    (timeout_us : Nat) (now : Nat) : Lane :=
  { L with
    mode := mode
    steps_per_sec := sps
    forward := forward
    motor_enabled := true
    next_step := now
    autoload_deadline :=
      if mode = .autoload ∧ timeout_us > 0 then now + timeout_us
      else L.autoload_deadline }

/-- Task stop `lane_stop_task` (main.c lines 295-298). -/
def lane_stop_task (L : Lane) : Lane :=
  { L with mode := .idle, motor_enabled := false }

/-- Per-tick `lane_process` (main.c lines 305-318): finish an autoload on OUT present
or deadline, otherwise emit a due step pulse and rearm the cadence deadline. -/
def lane_process (L : Lane) (out_present : Bool) (now : Nat) : Lane :=
  if L.mode = .autoload ∧ (out_present ∨ time_reached L.autoload_deadline now = true)
  then lane_stop_task L
  else if L.mode ≠ .idle ∧ time_reached L.next_step now = true
  then { L with next_step := now + step_interval_us L.steps_per_sec }
  else L

-- ------------------------------------------------------------- status LED

/-- Enumeration `led_state_t` (main.c lines 176-183). -/
inductive LedState where
  | led_idle
  | led_feeding
  | led_autoload
  | led_swap_armed
  | led_manual_rev
  | led_error
deriving DecidableEq, Repr

/-- LED classification in `main` (lines 502-509): sequential overwrites,
last write wins. -/
def led_of (any_manual armed : Bool) (m1 m2 : TaskMode) : LedState :=
  let led := LedState.led_idle
  if any_manual then LedState.led_manual_rev
  else
    let led := if armed then LedState.led_swap_armed else led
    let led := if m1 == TaskMode.autoload || m2 == TaskMode.autoload then LedState.led_autoload else led
    let led := if m1 == TaskMode.feed || m2 == TaskMode.feed then LedState.led_feeding else led
    led

/-- First-match priority reading of the classification, in the order the
code's last-write-wins assignments realise:
ManualReverse > Feeding > Autoload > SwapArmed > Idle. -/
def led_by_priority (any_manual armed : Bool) (m1 m2 : TaskMode) : LedState :=
  if any_manual then LedState.led_manual_rev
  else if m1 == TaskMode.feed || m2 == TaskMode.feed then LedState.led_feeding
  else if m1 == TaskMode.autoload || m2 == TaskMode.autoload then LedState.led_autoload
  else if armed then LedState.led_swap_armed
  else LedState.led_idle

/-- Blinker `status_led_update` (main.c lines 196-224): blink pattern, on/off as a
function of the classification and elapsed time. -/
def status_led_on (st : LedState) (t_us : Nat) : Bool :=
  match st with
  | .led_idle => decide (t_us % 1000000 < 60000)
  | .led_feeding => true
  | .led_autoload => decide (t_us % 200000 < 100000)
  | .led_swap_armed => decide (t_us % 1000000 < 250000)
  | .led_manual_rev => decide (t_us % 120000 < 60000)
  | .led_error => decide (t_us % 1200000 < 80000) || (decide (160000 ≤ t_us % 1200000) && decide (t_us % 1200000 < 240000))

-- --------------------------------------------------------- feed pot (ADC)

/-- Mapping `feed_pot_read_sps` (main.c lines 329-334). -/
def feed_pot_read_sps (raw : Nat) : Nat :=
  clamp_i (FEED_SPS_MIN + raw * (FEED_SPS_MAX - FEED_SPS_MIN) / 4095) FEED_SPS_MIN FEED_SPS_MAX

-- ------------------------------------------------------------ loop state

/-- The mutable state of the control loop in `main` (lines 367-382):
both lanes, the arbitration variables and the pot throttle. -/
structure Sys where
  l1 : Lane
  l2 : Lane
  active_lane : Nat
  swap_armed : Bool
  swap_cooldown_until : Nat
  low_since : Nat
  next_pot_read : Nat
  feed_sps : Nat
deriving DecidableEq, Repr

/-- State after initialization (lines 367-382), with boot time `t0`. -/
def sys_init (t0 : Nat) : Sys :=
  { l1 := lane_init t0
    l2 := lane_init t0
    active_lane := 1
    swap_armed := false
    swap_cooldown_until := t0
    low_since := t0
    next_pot_read := t0
    feed_sps := 5000 }

/-- One tick's inputs: the debounced logical booleans extracted at lines
397-410 of `main`, the raw pot sample, and the loop's `now`. -/
structure Inp where
  l1_in : Bool
  l1_out : Bool
  l2_in : Bool
  l2_out : Bool
  buffer_low : Bool
  buffer_high : Bool
  y_present : Bool
  rev_l1 : Bool
  rev_l2 : Bool
  pot_raw : Nat
  now : Nat
deriving DecidableEq, Repr

-- ------------------------------------------------------------ tick phases

/-- Pot throttle (main.c lines 412-417). -/
def pot_phase (s : Sys) (i : Inp) : Sys :=
  if time_reached s.next_pot_read i.now = true
  then { s with
         next_pot_read := i.now + POT_READ_PERIOD_US
         feed_sps := feed_pot_read_sps i.pot_raw }
  else s

/-- Per-lane manual-reverse handling (main.c lines 420-434). -/
def manual_lane (L : Lane) (rev : Bool) (now : Nat) : Lane :=
  if rev then
    (if !(L.mode == TaskMode.manual) || L.forward || !(L.steps_per_sec == REV_STEPS_PER_SEC)
     then lane_start_task L .manual REV_STEPS_PER_SEC false 0 now
     else L)
  else if L.mode == TaskMode.manual then lane_stop_task L else L

/-- Both lanes' manual-reverse sections. -/
def manual_phase (s : Sys) (i : Inp) : Sys :=
  { s with
    l1 := manual_lane s.l1 i.rev_l1 i.now
    l2 := manual_lane s.l2 i.rev_l2 i.now }

/-- Statement `if (L->mode == TASK_FEED) lane_stop_task(L)` (main.c lines 490-491). -/
def stop_feed (L : Lane) : Lane :=
  if L.mode == TaskMode.feed then lane_stop_task L else L

/-- Manual-override else-branch (main.c lines 488-492). -/
def manual_stop_feeds (s : Sys) : Sys :=
  { s with l1 := stop_feed s.l1, l2 := stop_feed s.l2 }

/-- Autoload trigger on an IN rising edge (main.c lines 439-444). -/
def autoload_trigger (L : Lane) (in_now out_now : Bool) (now : Nat) : Lane :=
  if in_now && !L.prev_in_present && !out_now && (L.mode == TaskMode.idle)
  then lane_start_task L .autoload AUTOLOAD_STEPS_PER_SEC true AUTOLOAD_TIMEOUT_US now
  else L

/-- The `low_since` update (main.c line 447). -/
def low_since_next (s : Sys) (i : Inp) : Nat :=
  if !i.buffer_low then i.now else s.low_since

/-- Demand `need_feed` (main.c lines 447-449): buffer-low persisting strictly longer
than `LOW_DELAY` while buffer-high is not asserted. -/
def need_feed_of (s : Sys) (i : Inp) : Bool :=
  i.buffer_low
  && decide ((i.now : Int) - (low_since_next s i : Int) > LOW_DELAY_US)
  && !i.buffer_high

/-- The `swap_armed` latch (main.c lines 452-453). -/
def armed_next (s : Sys) (i : Inp) : Bool :=
  s.swap_armed || ((s.active_lane == 1) && !i.l1_in) || ((s.active_lane == 2) && !i.l2_in)

/-- Swap arbitration (main.c lines 455-472): result is the new
`(active_lane, swap_armed, swap_cooldown_until)`. -/
def swap_decision (s : Sys) (i : Inp) : Nat × Bool × Nat :=
  let need_feed := need_feed_of s i
  let armed := armed_next s i
  let in_cooldown := !time_reached s.swap_cooldown_until i.now
  let allow_swap := (need_feed && armed) && !i.y_present
  if !in_cooldown && allow_swap then
    if (s.active_lane == 1) && i.l2_out then
      (2, false, i.now + SWAP_COOLDOWN_US)
    else if (s.active_lane == 2) && i.l1_out then
      (1, false, i.now + SWAP_COOLDOWN_US)
    else (s.active_lane, armed, s.swap_cooldown_until)
  else (s.active_lane, armed, s.swap_cooldown_until)

/-- Feed command applied to the active lane (main.c lines 478-487):
`go` is `!in_cooldown && need_feed && A_out_ok`. -/
def feed_apply (A : Lane) (go : Bool) (sps : Nat) (now : Nat) : Lane :=
  if go then
    (if A.mode == TaskMode.idle then lane_start_task A .feed sps true 0 now
     else if A.mode == TaskMode.feed then { A with steps_per_sec := sps }
     else A)
  else if A.mode == TaskMode.feed then lane_stop_task A else A

/-- Normal (no-manual) behaviour (main.c lines 437-487).  Note that the
`in_cooldown` reused by the feed-management block (line 478) is the value
computed at line 455, before the swap possibly moves the cooldown deadline. -/
def auto_phase (s : Sys) (i : Inp) : Sys :=
  let k1 := autoload_trigger s.l1 i.l1_in i.l1_out i.now
  let k2 := autoload_trigger s.l2 i.l2_in i.l2_out i.now
  let need_feed := need_feed_of s i
  let in_cooldown := !time_reached s.swap_cooldown_until i.now
  let sd := swap_decision s i
  let a1 := sd.1 == 1
  let go := !in_cooldown && need_feed && (if a1 then i.l1_out else i.l2_out)
  { s with
    l1 := if a1 then feed_apply k1 go s.feed_sps i.now else k1
    l2 := if a1 then k2 else feed_apply k2 go s.feed_sps i.now
    low_since := low_since_next s i
    active_lane := sd.1
    swap_armed := sd.2.1
    swap_cooldown_until := sd.2.2 }

/-- The `prev_in_present` refresh (main.c lines 495-496). -/
def set_prev (s : Sys) (i : Inp) : Sys :=
  { s with
    l1 := { s.l1 with prev_in_present := i.l1_in }
    l2 := { s.l2 with prev_in_present := i.l2_in } }

/-- Running `lane_process` on both lanes (main.c lines 499-500). -/
def process_phase (s : Sys) (i : Inp) : Sys :=
  { s with
    l1 := lane_process s.l1 i.l1_out i.now
    l2 := lane_process s.l2 i.l2_out i.now }

/-- One full pass of the control-loop body (main.c lines 384-530). -/
def tick (s : Sys) (i : Inp) : Sys :=
  let s1 := pot_phase s i
  let s2 := manual_phase s1 i
  let s3 := if i.rev_l1 || i.rev_l2 then manual_stop_feeds s2 else auto_phase s2 i
  process_phase (set_prev s3 i) i

/-- Run the control loop over a list of tick inputs. -/
def run_ticks (s : Sys) (l : List Inp) : Sys := l.foldl tick s

-- -------------------------------------------------- derived notions

/-- The lane selected by a lane identifier, as `(active_lane == 1) ? &L1 : &L2`
(main.c line 475). -/
def lane_of (s : Sys) (k : Nat) : Lane := if k == 1 then s.l1 else s.l2

/-- The OUT-sensor reading of the identified lane (main.c line 476). -/
def out_of (i : Inp) (k : Nat) : Bool := if k == 1 then i.l1_out else i.l2_out

/-- The candidate (currently inactive) lane's identifier. -/
def cand_of (s : Sys) : Nat := if s.active_lane == 1 then 2 else 1

/-- Spec §3 lane invariant: the stepper enable line is asserted exactly when
the lane's task mode is not Idle. -/
def lane_inv (L : Lane) : Prop := L.motor_enabled = true ↔ L.mode ≠ TaskMode.idle

def sys_inv (s : Sys) : Prop := lane_inv s.l1 ∧ lane_inv s.l2

-- ------------------------------------------- concrete scenario inputs

/-- All-inactive tick input at time 0. -/
def inp0 : Inp :=
  { l1_in := false
    l1_out := false
    l2_in := false
    l2_out := false
    buffer_low := false
    buffer_high := false
    y_present := false
    rev_l1 := false
    rev_l2 := false
    pot_raw := 0
    now := 0 }

/-- Tick 1: lane 1 loaded (IN and OUT present), buffer low starts. -/
def inp_a : Inp := { inp0 with l1_in := true, l1_out := true, buffer_low := true }

/-- Tick 2 at t=500000: lane 1 spool exhausted upstream (IN gone, arms the
swap), low has persisted > `LOW_DELAY`, lane 2 not ready yet. -/
def inp_b : Inp := { inp0 with l1_out := true, buffer_low := true, now := 500000 }

/-- Tick 3 at t=600000: identical but lane 2's OUT now present,
so the swap executes. -/
def inp_c : Inp :=
  { inp0 with l1_out := true, l2_out := true, buffer_low := true, now := 600000 }

/-- Tick 4 at t=700000: inside the post-swap cooldown window, demand still
present and the (new) active lane ready. -/
def inp_d : Inp := { inp0 with l2_out := true, buffer_low := true, now := 700000 }

def s2_demo : Sys := run_ticks (sys_init 0) [inp_a, inp_b]

def s3_demo : Sys := run_ticks (sys_init 0) [inp_a, inp_b, inp_c]

/-- Buffer-low tick at t=0 that keeps both lanes quiet (lane 1 loaded). -/
def inp_e : Inp := { inp0 with l1_in := true, l1_out := true, buffer_low := true }

/-- Tick at exactly t = `LOW_DELAY` with buffer-low still held, high false. -/
def inp_f : Inp :=
  { inp0 with l1_in := true, l1_out := true, buffer_low := true, now := 400000 }

/-- Feed-granting tick at t=500000 (low persisted strictly longer than
`LOW_DELAY`), lane 1 loaded, no arming, no manual. -/
def inp_w2 : Inp :=
  { inp0 with l1_in := true, l1_out := true, buffer_low := true, now := 500000 }

def s_c2 : Sys := tick (sys_init 0) inp_e

/-- IN rising edge on lane 1 with OUT absent: starts an Autoload task. -/
def inp_g : Inp := { inp0 with l1_in := true }

def s_auto : Sys := tick (sys_init 0) inp_g

/-- Tick exactly at the autoload deadline with lane 1's reverse button held. -/
def inp_h : Inp := { inp0 with rev_l1 := true, now := 6000000 }

/-- Tick exactly at the autoload deadline, no manual override. -/
def inp_m : Inp := { inp0 with now := 6000000 }

def s_armed : Sys := tick (sys_init 0) inp0

/-- Demanding tick with the candidate lane's OUT absent. -/
def inp_w4 : Inp := { inp0 with buffer_low := true, now := 1000000 }

/-- Post-swap tick at t=700000, within the cooldown window. -/
def inp_n : Inp :=
  { inp0 with buffer_low := true, l1_out := true, l2_out := true, now := 700000 }

/-- Manual-reverse tick. -/
def inp_r : Inp := { inp0 with rev_l1 := true, now := 100 }

-- ----------------------------------------------------------------------
-- Helper lemmas
-- ----------------------------------------------------------------------

theorem time_reached_eq (t now : Nat) : time_reached t now = decide (t ≤ now) := by
  simp only [time_reached, decide_eq_decide]
  omega

theorem pre_fields (s : Sys) (i : Inp) :
    (manual_phase (pot_phase s i) i).active_lane = s.active_lane
    ∧ (manual_phase (pot_phase s i) i).swap_armed = s.swap_armed
    ∧ (manual_phase (pot_phase s i) i).swap_cooldown_until = s.swap_cooldown_until
    ∧ (manual_phase (pot_phase s i) i).low_since = s.low_since
    ∧ (manual_phase (pot_phase s i) i).l1 = manual_lane s.l1 i.rev_l1 i.now
    ∧ (manual_phase (pot_phase s i) i).l2 = manual_lane s.l2 i.rev_l2 i.now := by
  unfold manual_phase pot_phase
  split <;> exact ⟨rfl, rfl, rfl, rfl, rfl, rfl⟩

theorem low_since_next_pre (s : Sys) (i : Inp) :
    low_since_next (manual_phase (pot_phase s i) i) i = low_since_next s i := by
  unfold low_since_next
  rw [(pre_fields s i).2.2.2.1]

theorem need_feed_pre (s : Sys) (i : Inp) :
    need_feed_of (manual_phase (pot_phase s i) i) i = need_feed_of s i := by
  unfold need_feed_of
  rw [low_since_next_pre]

theorem swap_decision_pre (s : Sys) (i : Inp) :
    swap_decision (manual_phase (pot_phase s i) i) i = swap_decision s i := by
  obtain ⟨h1, h2, h3, -, -, -⟩ := pre_fields s i
  unfold swap_decision armed_next
  rw [need_feed_pre, h1, h2, h3]

theorem tick_arb (s : Sys) (i : Inp) :
    (tick s i).active_lane
      = (if i.rev_l1 || i.rev_l2 then s.active_lane else (swap_decision s i).1)
    ∧ (tick s i).swap_armed
      = (if i.rev_l1 || i.rev_l2 then s.swap_armed else (swap_decision s i).2.1)
    ∧ (tick s i).swap_cooldown_until
      = (if i.rev_l1 || i.rev_l2 then s.swap_cooldown_until else (swap_decision s i).2.2)
    ∧ (tick s i).low_since
      = (if i.rev_l1 || i.rev_l2 then s.low_since else low_since_next s i) := by
  obtain ⟨h1, h2, h3, h4, -, -⟩ := pre_fields s i
  cases hr : i.rev_l1 || i.rev_l2 <;>
    simp only [tick, process_phase, set_prev, manual_stop_feeds, auto_phase, hr,
      Bool.false_eq_true, if_false, if_true, swap_decision_pre, low_since_next_pre] <;>
    first
      | exact ⟨trivial, trivial, trivial, trivial⟩
      | exact ⟨h1, h2, h3, h4⟩

theorem manual_lane_mode_autoload (L : Lane) (rev : Bool) (now : Nat)
    (h : (manual_lane L rev now).mode = TaskMode.autoload) :
    L.mode = TaskMode.autoload := by
  unfold manual_lane lane_start_task lane_stop_task at h
  split at h <;> split at h <;> simp_all

theorem stop_feed_mode_autoload (L : Lane)
    (h : (stop_feed L).mode = TaskMode.autoload) : L.mode = TaskMode.autoload := by
  unfold stop_feed lane_stop_task at h
  split at h <;> simp_all

theorem lane_process_mode_autoload (L : Lane) (o : Bool) (n : Nat)
    (h : (lane_process L o n).mode = TaskMode.autoload) :
    L.mode = TaskMode.autoload := by
  unfold lane_process lane_stop_task at h
  split at h
  · simp_all
  · split at h <;> exact h

-- ----------------------------------------------------------------------
-- Claim theorems
-- ----------------------------------------------------------------------

/-- Claim C10: on every tick during which either lane's manual-reverse button
is held, the arbitration state (active lane, swap-armed flag, cooldown
deadline, buffer-low-since timestamp) is unchanged, and no Autoload task can
start on either lane. -/
theorem C10_manual_freeze (s : Sys) (i : Inp)
    (h : i.rev_l1 = true ∨ i.rev_l2 = true) :
    (tick s i).active_lane = s.active_lane
    ∧ (tick s i).swap_armed = s.swap_armed
    ∧ (tick s i).swap_cooldown_until = s.swap_cooldown_until
    ∧ (tick s i).low_since = s.low_since
    ∧ ((tick s i).l1.mode = TaskMode.autoload → s.l1.mode = TaskMode.autoload)
    ∧ ((tick s i).l2.mode = TaskMode.autoload → s.l2.mode = TaskMode.autoload) := by
  have hr : (i.rev_l1 || i.rev_l2) = true := by
    rcases h with h | h <;> simp [h]
  obtain ⟨a1, a2, a3, a4⟩ := tick_arb s i
  rw [hr] at a1 a2 a3 a4
  simp only [if_true] at a1 a2 a3 a4
  have h5 := (pre_fields s i).2.2.2.2.1
  have h6 := (pre_fields s i).2.2.2.2.2
  have hl1 : (tick s i).l1
      = lane_process { stop_feed (manual_lane s.l1 i.rev_l1 i.now) with
                       prev_in_present := i.l1_in } i.l1_out i.now := by
    simp only [tick, process_phase, set_prev, manual_stop_feeds, hr, if_true, h5]
  have hl2 : (tick s i).l2
      = lane_process { stop_feed (manual_lane s.l2 i.rev_l2 i.now) with
                       prev_in_present := i.l2_in } i.l2_out i.now := by
    simp only [tick, process_phase, set_prev, manual_stop_feeds, hr, if_true, h6]
  refine ⟨a1, a2, a3, a4, ?_, ?_⟩
  · intro hm
    rw [hl1] at hm
    have hm2 := lane_process_mode_autoload
      { stop_feed (manual_lane s.l1 i.rev_l1 i.now) with prev_in_present := i.l1_in }
      i.l1_out i.now hm
    exact manual_lane_mode_autoload _ _ _ (stop_feed_mode_autoload _ hm2)
  · intro hm
    rw [hl2] at hm
    have hm2 := lane_process_mode_autoload
      { stop_feed (manual_lane s.l2 i.rev_l2 i.now) with prev_in_present := i.l2_in }
      i.l2_out i.now hm
    exact manual_lane_mode_autoload _ _ _ (stop_feed_mode_autoload _ hm2)

/-- Claim C10 witness at a concrete manual tick. -/
theorem C10_manual_freeze_witness :
    (inp_r.rev_l1 = true ∨ inp_r.rev_l2 = true)
    ∧ ((tick (sys_init 0) inp_r).active_lane = (sys_init 0).active_lane
       ∧ (tick (sys_init 0) inp_r).swap_armed = (sys_init 0).swap_armed
       ∧ (tick (sys_init 0) inp_r).swap_cooldown_until = (sys_init 0).swap_cooldown_until
       ∧ (tick (sys_init 0) inp_r).low_since = (sys_init 0).low_since
       ∧ ((tick (sys_init 0) inp_r).l1.mode = TaskMode.autoload →
            (sys_init 0).l1.mode = TaskMode.autoload)
       ∧ ((tick (sys_init 0) inp_r).l2.mode = TaskMode.autoload →
            (sys_init 0).l2.mode = TaskMode.autoload)) :=
  ⟨Or.inl (by decide), C10_manual_freeze (sys_init 0) inp_r (Or.inl (by decide))⟩

theorem swap_decision_no_cand (s : Sys) (i : Inp)
    (hA : s.active_lane = 1 ∨ s.active_lane = 2)
    (hout : out_of i (cand_of s) = false) :
    swap_decision s i = (s.active_lane, armed_next s i, s.swap_cooldown_until) := by
  rcases hA with h | h <;>
    simp [out_of, cand_of, h] at hout <;>
    simp [swap_decision, h, hout]

/-- Claim C4: a swap never executes on a tick where the candidate (inactive)
lane's OUT sensor is not present, even if armed, demanded, Y clear and out of
cooldown: the active lane, the armed flag and the cooldown deadline are all
unchanged. -/
theorem C4_swap_readiness_gate (s : Sys) (i : Inp)
    (hA : s.active_lane = 1 ∨ s.active_lane = 2)
    (harm : s.swap_armed = true)
    (hout : out_of i (cand_of s) = false) :
    (tick s i).active_lane = s.active_lane
    ∧ (tick s i).swap_armed = true
    ∧ (tick s i).swap_cooldown_until = s.swap_cooldown_until := by
  obtain ⟨a1, a2, a3, -⟩ := tick_arb s i
  have hsd := swap_decision_no_cand s i hA hout
  have harm2 : armed_next s i = true := by simp [armed_next, harm]
  rw [a1, a2, a3, hsd]
  cases hr : i.rev_l1 || i.rev_l2 <;> simp [harm, harm2]

/-- Claim C4 witness: armed state (lane 1 active, IN empty), demanding tick,
candidate lane 2 not ready. -/
theorem C4_swap_readiness_gate_witness :
    (s_armed.active_lane = 1 ∨ s_armed.active_lane = 2)
    ∧ s_armed.swap_armed = true
    ∧ out_of inp_w4 (cand_of s_armed) = false
    ∧ ((tick s_armed inp_w4).active_lane = s_armed.active_lane
       ∧ (tick s_armed inp_w4).swap_armed = true
       ∧ (tick s_armed inp_w4).swap_cooldown_until = s_armed.swap_cooldown_until) :=
  ⟨Or.inl (by decide), by decide, by decide,
    C4_swap_readiness_gate s_armed inp_w4 (Or.inl (by decide)) (by decide) (by decide)⟩

theorem tick_in_cooldown (s : Sys) (i : Inp) (h : i.now < s.swap_cooldown_until) :
    (tick s i).active_lane = s.active_lane
    ∧ (tick s i).swap_cooldown_until = s.swap_cooldown_until := by
  obtain ⟨a1, -, a3, -⟩ := tick_arb s i
  have hc : time_reached s.swap_cooldown_until i.now = false := by
    rw [time_reached_eq]
    simp
    omega
  have hsd : swap_decision s i = (s.active_lane, armed_next s i, s.swap_cooldown_until) := by
    simp [swap_decision, hc]
  rw [a1, a3, hsd]
  cases hr : i.rev_l1 || i.rev_l2 <;> simp

theorem run_ticks_in_cooldown (l : List Inp) :
    ∀ (s : Sys), (∀ j ∈ l, j.now < s.swap_cooldown_until) →
      (run_ticks s l).active_lane = s.active_lane
      ∧ (run_ticks s l).swap_cooldown_until = s.swap_cooldown_until := by
  induction l with
  | nil => exact fun s _ => ⟨rfl, rfl⟩
  | cons j l ih =>
      intro s h
      have hj : j.now < s.swap_cooldown_until := h j (List.mem_cons_self j l)
      obtain ⟨t1, t2⟩ := tick_in_cooldown s j hj
      have hrest : ∀ k ∈ l, k.now < (tick s j).swap_cooldown_until := by
        intro k hk
        rw [t2]
        exact h k (List.mem_cons_of_mem j hk)
      obtain ⟨r1, r2⟩ := ih (tick s j) hrest
      constructor
      · show (run_ticks (tick s j) l).active_lane = s.active_lane
        rw [r1, t1]
      · show (run_ticks (tick s j) l).swap_cooldown_until = s.swap_cooldown_until
        rw [r2, t2]

theorem swap_decision_change (s : Sys) (i : Inp)
    (h : (swap_decision s i).1 ≠ s.active_lane) :
    (swap_decision s i).2.2 = i.now + SWAP_COOLDOWN_US := by
  simp only [swap_decision] at h ⊢
  revert h
  cases hc : (!(!time_reached s.swap_cooldown_until i.now)
      && (need_feed_of s i && armed_next s i && !i.y_present))
  · intro h
    simp only [Bool.false_eq_true, if_false] at h
    exact absurd rfl h
  · simp only [eq_self_iff_true, if_true]
    cases hb1 : (s.active_lane == 1 && i.l2_out)
    · simp only [Bool.false_eq_true, if_false]
      cases hb2 : (s.active_lane == 2 && i.l1_out)
      · intro h
        exact absurd rfl h
      · intro h
        simp
    · intro h
      simp

theorem swap_sets_cooldown (s : Sys) (i : Inp)
    (h : (tick s i).active_lane ≠ s.active_lane) :
    (tick s i).swap_cooldown_until = i.now + SWAP_COOLDOWN_US := by
  obtain ⟨a1, -, a3, -⟩ := tick_arb s i
  rw [a1] at h
  rw [a3]
  cases hr : i.rev_l1 || i.rev_l2
  · rw [hr] at h
    simp only [Bool.false_eq_true, if_false] at h ⊢
    exact swap_decision_change s i h
  · rw [hr] at h
    simp at h

/-- Claim C5: after a swap executes at time `T` (the tick's `now`), no second
swap executes at any later tick whose time is below `T + SWAP_COOLDOWN`,
whatever the inputs on those ticks are: the active lane stays put. -/
theorem C5_cooldown_enforcement (s : Sys) (i : Inp) (l : List Inp)
    (hswap : (tick s i).active_lane ≠ s.active_lane)
    (hl : ∀ j ∈ l, j.now < i.now + SWAP_COOLDOWN_US) :
    (run_ticks (tick s i) l).active_lane = (tick s i).active_lane := by
  have hcd := swap_sets_cooldown s i hswap
  refine (run_ticks_in_cooldown l (tick s i) ?_).1
  intro j hj
  rw [hcd]
  exact hl j hj

/-- Claim C1, evaluated at a failing input: starting from `sys_init 0`, after
tick `inp_a` (lane 1 loaded, buffer low), tick `inp_b` (lane 1 IN empty arms
the swap, demand present, lane 1 starts feeding) and tick `inp_c` (lane 2
ready, swap executes), BOTH lanes are in Feed mode on the swap tick: the
outgoing lane's Feed task is never stopped when the swap flips the active
lane, and the pre-swap `in_cooldown` value lets the incoming lane start
feeding on the same tick. -/
theorem C1_swap_mutex_violation :
    s2_demo.active_lane = 1
    ∧ s2_demo.l1.mode = TaskMode.feed
    ∧ s2_demo.l2.mode = TaskMode.idle
    ∧ s3_demo.active_lane = 2
    ∧ s3_demo.l1.mode = TaskMode.feed
    ∧ s3_demo.l2.mode = TaskMode.feed := by decide

/-- Claim C2 counterexample: tick `inp_d` at t=700000 is inside the cooldown
window set by the swap at t=600000; feed demand holds, there is no manual
override, the active lane (2) has its OUT sensor present and was feeding —
yet the code commands it out of Feed (mode Idle after the tick), so the
cooldown does gate the Feed command itself. -/
theorem C2_cooldown_gates_feed_cex :
    inp_d.rev_l1 = false ∧ inp_d.rev_l2 = false
    ∧ need_feed_of s3_demo inp_d = true
    ∧ s3_demo.active_lane = 2
    ∧ out_of inp_d s3_demo.active_lane = true
    ∧ s3_demo.l2.mode = TaskMode.feed
    ∧ inp_d.now < s3_demo.swap_cooldown_until
    ∧ (tick s3_demo inp_d).active_lane = 2
    ∧ (tick s3_demo inp_d).l2.mode = TaskMode.idle := by decide

/-- Claim C3 counterexample: buffer-low continuously true since t=0
(`low_since = 0`), buffer-high false, and a tick at exactly
t = `LOW_DELAY` = 400000: the continuous-low duration has just reached
`LOW_DELAY`, but `need_feed` is still false, because the code requires the
duration to strictly exceed `LOW_DELAY` (`>` at main.c line 448). -/
theorem C3_low_delay_boundary_cex :
    (tick (sys_init 0) inp_e).low_since = 0
    ∧ inp_f.buffer_low = true
    ∧ inp_f.buffer_high = false
    ∧ (inp_f.now : Int) - ((tick (sys_init 0) inp_e).low_since : Int) = LOW_DELAY_US
    ∧ need_feed_of (tick (sys_init 0) inp_e) inp_f = false := by decide

/-- Claim C6 counterexample: an Autoload task started at t=0 (deadline
6000000) and a tick processed exactly at the deadline with lane 1's
manual-reverse button held: the lane leaves Autoload, but into ManualReverse
with its motor still ENABLED, not disabled as the claim states. -/
theorem C6_autoload_timeout_cex :
    s_auto.l1.mode = TaskMode.autoload
    ∧ s_auto.l1.autoload_deadline ≤ inp_h.now
    ∧ (tick s_auto inp_h).l1.mode = TaskMode.manual
    ∧ (tick s_auto inp_h).l1.motor_enabled = true := by decide

/-- Claim C9 counterexample: with swap-armed set and a lane Feeding (no
manual), the code shows the Feeding pattern, not the SwapArmed pattern the
claimed priority order demands. -/
theorem C9_led_priority_cex :
    led_of false true TaskMode.feed TaskMode.idle = LedState.led_feeding
    ∧ led_of false true TaskMode.feed TaskMode.idle ≠ LedState.led_swap_armed := by
  decide

/-- Claim C9 as amended: the LED classification is the first-match priority
selection in the order ManualReverse > Feeding > Autoload > SwapArmed > Idle
(the code's last-write-wins order), not Manual > SwapArmed > Autoload >
Feeding. -/
theorem C9_led_priority_amended :
    ∀ (any_manual armed : Bool) (m1 m2 : TaskMode),
      led_of any_manual armed m1 m2 = led_by_priority any_manual armed m1 m2 := by
  intro am ar m1 m2
  cases am <;> cases ar <;> cases m1 <;> cases m2 <;> rfl

theorem lane_inv_start (L : Lane) (m : TaskMode) (sps : Nat) (f : Bool)
    (tmo now : Nat) (hm : m ≠ TaskMode.idle) :
    lane_inv (lane_start_task L m sps f tmo now) := by
  simp [lane_inv, lane_start_task, hm]

theorem lane_inv_stop (L : Lane) : lane_inv (lane_stop_task L) := by
  simp [lane_inv, lane_stop_task]

theorem manual_lane_inv (L : Lane) (rev : Bool) (now : Nat) (h : lane_inv L) :
    lane_inv (manual_lane L rev now) := by
  unfold manual_lane
  split
  · split
    · exact lane_inv_start _ _ _ _ _ _ (by decide)
    · exact h
  · split
    · exact lane_inv_stop _
    · exact h

theorem stop_feed_inv (L : Lane) (h : lane_inv L) : lane_inv (stop_feed L) := by
  unfold stop_feed
  split
  · exact lane_inv_stop _
  · exact h

theorem autoload_trigger_inv (L : Lane) (a b : Bool) (now : Nat) (h : lane_inv L) :
    lane_inv (autoload_trigger L a b now) := by
  unfold autoload_trigger
  split
  · exact lane_inv_start _ _ _ _ _ _ (by decide)
  · exact h

theorem feed_apply_inv (A : Lane) (go : Bool) (sps now : Nat) (h : lane_inv A) :
    lane_inv (feed_apply A go sps now) := by
  unfold feed_apply
  split
  · split
    · exact lane_inv_start _ _ _ _ _ _ (by decide)
    · split
      · exact h
      · exact h
  · split
    · exact lane_inv_stop _
    · exact h

theorem lane_process_inv (L : Lane) (o : Bool) (n : Nat) (h : lane_inv L) :
    lane_inv (lane_process L o n) := by
  unfold lane_process
  split
  · exact lane_inv_stop _
  · split
    · exact h
    · exact h

theorem pot_inv (s : Sys) (i : Inp) (h : sys_inv s) : sys_inv (pot_phase s i) := by
  unfold pot_phase
  split
  · exact h
  · exact h

theorem manual_inv (s : Sys) (i : Inp) (h : sys_inv s) : sys_inv (manual_phase s i) :=
  ⟨manual_lane_inv _ _ _ h.1, manual_lane_inv _ _ _ h.2⟩

theorem stopfeeds_inv (s : Sys) (h : sys_inv s) : sys_inv (manual_stop_feeds s) :=
  ⟨stop_feed_inv _ h.1, stop_feed_inv _ h.2⟩

theorem auto_inv (s : Sys) (i : Inp) (h : sys_inv s) : sys_inv (auto_phase s i) := by
  obtain ⟨h1, h2⟩ := h
  refine ⟨?_, ?_⟩ <;> simp only [auto_phase] <;> split
  · exact feed_apply_inv _ _ _ _ (autoload_trigger_inv _ _ _ _ h1)
  · exact autoload_trigger_inv _ _ _ _ h1
  · exact autoload_trigger_inv _ _ _ _ h2
  · exact feed_apply_inv _ _ _ _ (autoload_trigger_inv _ _ _ _ h2)

theorem setprev_inv (s : Sys) (i : Inp) (h : sys_inv s) : sys_inv (set_prev s i) :=
  ⟨h.1, h.2⟩

theorem process_inv (s : Sys) (i : Inp) (h : sys_inv s) : sys_inv (process_phase s i) :=
  ⟨lane_process_inv _ _ _ h.1, lane_process_inv _ _ _ h.2⟩

theorem tick_inv (s : Sys) (i : Inp) (h : sys_inv s) : sys_inv (tick s i) := by
  simp only [tick]
  apply process_inv
  apply setprev_inv
  split
  · exact stopfeeds_inv _ (manual_inv _ _ (pot_inv _ _ h))
  · exact auto_inv _ _ (manual_inv _ _ (pot_inv _ _ h))

/-- Claim C8: for every lane, after initialization and any run of the control
loop, the lane's stepper motor is enabled if and only if its task mode is not
Idle. -/
theorem C8_motor_enable_invariant (t0 : Nat) (l : List Inp) :
    sys_inv (run_ticks (sys_init t0) l) := by
  have h0 : sys_inv (sys_init t0) := by
    constructor <;> simp [lane_inv, sys_init, lane_init]
  have go : ∀ (l2 : List Inp) (s : Sys), sys_inv s → sys_inv (run_ticks s l2) := by
    intro l2
    induction l2 with
    | nil => exact fun s h => h
    | cons j l2 ih => exact fun s h => ih (tick s j) (tick_inv s j h)
  exact go l (sys_init t0) h0

theorem tick_low_since_of_low (s : Sys) (i : Inp) (h : i.buffer_low = true) :
    (tick s i).low_since = s.low_since := by
  obtain ⟨-, -, -, a4⟩ := tick_arb s i
  rw [a4]
  cases hr : i.rev_l1 || i.rev_l2
  · simp [low_since_next, h]
  · simp

theorem run_ticks_low_since (l : List Inp) :
    ∀ (s : Sys), (∀ j ∈ l, j.buffer_low = true) →
      (run_ticks s l).low_since = s.low_since := by
  induction l with
  | nil => exact fun s _ => rfl
  | cons j l ih =>
      intro s h
      have hj : j.buffer_low = true := h j (List.mem_cons_self j l)
      have hrec : (run_ticks (tick s j) l).low_since = (tick s j).low_since :=
        ih (tick s j) (fun k hk => h k (List.mem_cons_of_mem j hk))
      show (run_ticks (tick s j) l).low_since = s.low_since
      rw [hrec, tick_low_since_of_low s j hj]

/-- Claim C3 as amended: with buffer-low held on every tick of a run (so
`low_since` is preserved), feed demand on the next tick is false whenever the
continuous-low duration is at most `LOW_DELAY` (in particular at exactly
`LOW_DELAY`); it is true as soon as the duration strictly exceeds `LOW_DELAY`
with buffer-low held and buffer-high false; and buffer-high true always
forces it false. -/
theorem C3_feed_demand_hysteresis_amended (s : Sys) (l : List Inp) (i : Inp)
    (hl : ∀ j ∈ l, j.buffer_low = true) :
    (((i.now : Int) - (s.low_since : Int) ≤ LOW_DELAY_US) →
        need_feed_of (run_ticks s l) i = false)
    ∧ (i.buffer_low = true → i.buffer_high = false →
        ((i.now : Int) - (s.low_since : Int) > LOW_DELAY_US) →
        need_feed_of (run_ticks s l) i = true)
    ∧ (i.buffer_high = true → need_feed_of (run_ticks s l) i = false) := by
  have he : (run_ticks s l).low_since = s.low_since := run_ticks_low_since l s hl
  refine ⟨?_, ?_, ?_⟩
  · intro hd
    cases hb : i.buffer_low
    · simp [need_feed_of, hb]
    · have hlt : ¬ ((i.now : Int) - ((run_ticks s l).low_since : Int) > LOW_DELAY_US) := by
        rw [he]
        omega
      simp [need_feed_of, low_since_next, hb, hlt]
  · intro hb hh hd
    have hgt : (i.now : Int) - ((run_ticks s l).low_since : Int) > LOW_DELAY_US := by
      rw [he]
      exact hd
    simp [need_feed_of, low_since_next, hb, hh, hgt]
  · intro hh
    simp [need_feed_of, hh]

/-- Claim C3 (amended) witness: buffer-low held since t=0, tick at t=500000
(duration 500000 > `LOW_DELAY`), buffer-high false: demand is true. -/
theorem C3_feed_demand_hysteresis_amended_witness :
    (∀ j ∈ [inp_e], j.buffer_low = true)
    ∧ need_feed_of (run_ticks (sys_init 0) [inp_e]) inp_w2 = true :=
  ⟨by decide,
    (C3_feed_demand_hysteresis_amended (sys_init 0) [inp_e] inp_w2 (by decide)).2.1
      (by decide) (by decide) (by decide)⟩

theorem manual_lane_no_rev (L : Lane) (now : Nat) (h : L.mode ≠ TaskMode.manual) :
    manual_lane L false now = L := by
  simp [manual_lane, h]

theorem autoload_trigger_out (L : Lane) (a : Bool) (now : Nat) :
    autoload_trigger L a true now = L := by
  simp [autoload_trigger]

theorem feed_apply_go_mode (A : Lane) (sps now : Nat)
    (h : A.mode = TaskMode.idle ∨ A.mode = TaskMode.feed) :
    (feed_apply A true sps now).mode = TaskMode.feed := by
  rcases h with h | h <;> simp [feed_apply, h, lane_start_task]

theorem lane_process_mode_feed (L : Lane) (o : Bool) (n : Nat)
    (h : L.mode = TaskMode.feed) : (lane_process L o n).mode = TaskMode.feed := by
  unfold lane_process
  have hna : ¬(L.mode = TaskMode.autoload
      ∧ (o = true ∨ time_reached L.autoload_deadline n = true)) := by
    simp [h]
  rw [if_neg hna]
  split
  · exact h
  · exact h

theorem tick_lanes_auto (s : Sys) (i : Inp) (hr : (i.rev_l1 || i.rev_l2) = false) :
    (tick s i).l1 = lane_process
      { (auto_phase (manual_phase (pot_phase s i) i) i).l1 with
        prev_in_present := i.l1_in } i.l1_out i.now
    ∧ (tick s i).l2 = lane_process
      { (auto_phase (manual_phase (pot_phase s i) i) i).l2 with
        prev_in_present := i.l2_in } i.l2_out i.now := by
  simp only [tick, process_phase, set_prev, hr, Bool.false_eq_true, if_false]
  exact ⟨trivial, trivial⟩

theorem auto_phase_l1 (s : Sys) (i : Inp) :
    (auto_phase s i).l1
      = if (swap_decision s i).1 == 1
        then feed_apply (autoload_trigger s.l1 i.l1_in i.l1_out i.now)
              (!(!time_reached s.swap_cooldown_until i.now) && need_feed_of s i
                 && (if (swap_decision s i).1 == 1 then i.l1_out else i.l2_out))
              s.feed_sps i.now
        else autoload_trigger s.l1 i.l1_in i.l1_out i.now := rfl

theorem auto_phase_l2 (s : Sys) (i : Inp) :
    (auto_phase s i).l2
      = if (swap_decision s i).1 == 1
        then autoload_trigger s.l2 i.l2_in i.l2_out i.now
        else feed_apply (autoload_trigger s.l2 i.l2_in i.l2_out i.now)
              (!(!time_reached s.swap_cooldown_until i.now) && need_feed_of s i
                 && (if (swap_decision s i).1 == 1 then i.l1_out else i.l2_out))
              s.feed_sps i.now := rfl

/-- Claim C2 as amended: the cooldown deadline gates the Feed command as
well as swaps.  On a tick with no manual override, feed demand, the active
lane's OUT present, the cooldown deadline passed, no swap executing, and the
active lane Idle or already Feeding, the active lane ends the tick in Feed
mode (started, or refreshed). -/
theorem C2_feed_command_amended (s : Sys) (i : Inp)
    (hr1 : i.rev_l1 = false) (hr2 : i.rev_l2 = false)
    (hA : s.active_lane = 1 ∨ s.active_lane = 2)
    (hnf : need_feed_of s i = true)
    (hcd : time_reached s.swap_cooldown_until i.now = true)
    (hout : out_of i s.active_lane = true)
    (hns : (tick s i).active_lane = s.active_lane)
    (hmode : (lane_of s s.active_lane).mode = TaskMode.idle
             ∨ (lane_of s s.active_lane).mode = TaskMode.feed) :
    (lane_of (tick s i) s.active_lane).mode = TaskMode.feed := by
  have hr : (i.rev_l1 || i.rev_l2) = false := by rw [hr1, hr2]; rfl
  obtain ⟨a1eq, -, -, -⟩ := tick_arb s i
  rw [hr] at a1eq
  simp only [Bool.false_eq_true, if_false] at a1eq
  have hsd1 : (swap_decision s i).1 = s.active_lane := by rw [← a1eq]; exact hns
  obtain ⟨hl1, hl2⟩ := tick_lanes_auto s i hr
  obtain ⟨p1, p2, p3, p4, p5, p6⟩ := pre_fields s i
  have e11 : ((1 : Nat) == 1) = true := rfl
  have e21 : ((2 : Nat) == 1) = false := rfl
  rcases hA with hA | hA
  · have hmode1 : s.l1.mode = TaskMode.idle ∨ s.l1.mode = TaskMode.feed := by
      rw [hA] at hmode
      exact hmode
    have hout1 : i.l1_out = true := by
      rw [hA] at hout
      exact hout
    have hgoal : lane_of (tick s i) s.active_lane = (tick s i).l1 := by
      rw [hA]
      rfl
    rw [hgoal, hl1, auto_phase_l1, p5, p3, swap_decision_pre, need_feed_pre,
      hsd1, hA, hr1,
      manual_lane_no_rev _ _ (by rcases hmode1 with h | h <;> simp [h]),
      hout1, autoload_trigger_out, hcd, hnf]
    simp only [e11, eq_self_iff_true, if_true, Bool.not_true, Bool.not_false,
      Bool.and_true, Bool.true_and]
    exact lane_process_mode_feed _ _ _ (feed_apply_go_mode s.l1 _ _ hmode1)
  · have hmode2 : s.l2.mode = TaskMode.idle ∨ s.l2.mode = TaskMode.feed := by
      rw [hA] at hmode
      exact hmode
    have hout2 : i.l2_out = true := by
      rw [hA] at hout
      exact hout
    have hgoal : lane_of (tick s i) s.active_lane = (tick s i).l2 := by
      rw [hA]
      rfl
    rw [hgoal, hl2, auto_phase_l2, p6, p3, swap_decision_pre, need_feed_pre,
      hsd1, hA, hr2,
      manual_lane_no_rev _ _ (by rcases hmode2 with h | h <;> simp [h]),
      hout2, autoload_trigger_out, hcd, hnf]
    simp only [e21, Bool.false_eq_true, if_false, Bool.not_true, Bool.not_false,
      Bool.and_true, Bool.true_and]
    exact lane_process_mode_feed _ _ _ (feed_apply_go_mode s.l2 _ _ hmode2)

/-- Claim C2 (amended) witness: demand at t=500000 with lane 1 active, idle,
loaded, cooldown long passed: the tick starts Feed on lane 1. -/
theorem C2_feed_command_amended_witness :
    inp_w2.rev_l1 = false ∧ inp_w2.rev_l2 = false
    ∧ (s_c2.active_lane = 1 ∨ s_c2.active_lane = 2)
    ∧ need_feed_of s_c2 inp_w2 = true
    ∧ time_reached s_c2.swap_cooldown_until inp_w2.now = true
    ∧ out_of inp_w2 s_c2.active_lane = true
    ∧ (tick s_c2 inp_w2).active_lane = s_c2.active_lane
    ∧ ((lane_of s_c2 s_c2.active_lane).mode = TaskMode.idle
       ∨ (lane_of s_c2 s_c2.active_lane).mode = TaskMode.feed)
    ∧ (lane_of (tick s_c2 inp_w2) s_c2.active_lane).mode = TaskMode.feed :=
  ⟨by decide, by decide, Or.inl (by decide), by decide, by decide, by decide,
    by decide, Or.inl (by decide),
    C2_feed_command_amended s_c2 inp_w2 (by decide) (by decide)
      (Or.inl (by decide)) (by decide) (by decide) (by decide) (by decide)
      (Or.inl (by decide))⟩

theorem tick_lanes_manual (s : Sys) (i : Inp) (hr : (i.rev_l1 || i.rev_l2) = true) :
    (tick s i).l1 = lane_process
      { stop_feed (manual_lane s.l1 i.rev_l1 i.now) with
        prev_in_present := i.l1_in } i.l1_out i.now
    ∧ (tick s i).l2 = lane_process
      { stop_feed (manual_lane s.l2 i.rev_l2 i.now) with
        prev_in_present := i.l2_in } i.l2_out i.now := by
  simp only [tick, process_phase, set_prev, manual_stop_feeds, hr, if_true,
    (pre_fields s i).2.2.2.2.1, (pre_fields s i).2.2.2.2.2]
  exact ⟨trivial, trivial⟩

theorem manual_lane_rev_mode (L : Lane) (now : Nat) (h : L.mode ≠ TaskMode.manual) :
    (manual_lane L true now).mode = TaskMode.manual := by
  simp [manual_lane, h, lane_start_task]

theorem stop_feed_keep (L : Lane) (h : L.mode ≠ TaskMode.feed) : stop_feed L = L := by
  simp [stop_feed, h]

theorem lane_process_mode_keep (L : Lane) (o : Bool) (n : Nat)
    (h : L.mode ≠ TaskMode.autoload) : (lane_process L o n).mode = L.mode := by
  unfold lane_process
  rw [if_neg (by simp [h])]
  split <;> rfl

theorem lane_process_deadline (L : Lane) (o : Bool) (n : Nat)
    (h : L.mode = TaskMode.autoload)
    (hd : time_reached L.autoload_deadline n = true) :
    lane_process L o n = lane_stop_task L := by
  unfold lane_process
  rw [if_pos ⟨h, Or.inr hd⟩]

theorem autoload_trigger_not_idle (L : Lane) (a b : Bool) (now : Nat)
    (h : L.mode ≠ TaskMode.idle) : autoload_trigger L a b now = L := by
  simp [autoload_trigger, h]

theorem feed_apply_other (A : Lane) (go : Bool) (sps now : Nat)
    (h1 : A.mode ≠ TaskMode.idle) (h2 : A.mode ≠ TaskMode.feed) :
    feed_apply A go sps now = A := by
  simp [feed_apply, h1, h2]

/-- Claim C6 as amended: a lane in Autoload whose deadline has been reached
leaves Autoload mode on the very tick processed at or after the deadline; if
that lane's manual-reverse button is not held on that tick it ends the tick
Idle with its motor disabled, while a held button preempts into ManualReverse
(motor enabled). -/
theorem C6_autoload_bounded_amended (s : Sys) (i : Inp) :
    (s.l1.mode = TaskMode.autoload → s.l1.autoload_deadline ≤ i.now →
      ((tick s i).l1.mode ≠ TaskMode.autoload
       ∧ (i.rev_l1 = false →
           (tick s i).l1.mode = TaskMode.idle
           ∧ (tick s i).l1.motor_enabled = false)))
    ∧ (s.l2.mode = TaskMode.autoload → s.l2.autoload_deadline ≤ i.now →
      ((tick s i).l2.mode ≠ TaskMode.autoload
       ∧ (i.rev_l2 = false →
           (tick s i).l2.mode = TaskMode.idle
           ∧ (tick s i).l2.motor_enabled = false))) := by
  obtain ⟨-, -, -, -, p5, p6⟩ := pre_fields s i
  constructor
  · intro hm hd
    have hdr : time_reached s.l1.autoload_deadline i.now = true := by
      rw [time_reached_eq]
      exact decide_eq_true hd
    cases hr1 : i.rev_l1
    · cases hr2v : i.rev_l2
      · -- no manual at all: the autoload is stopped by lane_process
        have hr : (i.rev_l1 || i.rev_l2) = false := by rw [hr1, hr2v]; rfl
        obtain ⟨hl1, -⟩ := tick_lanes_auto s i hr
        have hauto : (auto_phase (manual_phase (pot_phase s i) i) i).l1 = s.l1 := by
          rw [auto_phase_l1, p5, hr1,
            manual_lane_no_rev _ _ (by simp [hm]),
            autoload_trigger_not_idle _ _ _ _ (by simp [hm]),
            feed_apply_other _ _ _ _ (by simp [hm]) (by simp [hm]), ite_self]
        have hstop : (tick s i).l1 = lane_stop_task { s.l1 with prev_in_present := i.l1_in } := by
          rw [hl1, hauto]
          exact lane_process_deadline _ _ _ hm hdr
        refine ⟨?_, fun _ => ⟨?_, ?_⟩⟩
        · rw [hstop]
          simp [lane_stop_task]
        · rw [hstop]
          rfl
        · rw [hstop]
          rfl
      · -- the other lane's button held: lane 1 still stopped by lane_process
        have hr : (i.rev_l1 || i.rev_l2) = true := by rw [hr1, hr2v]; rfl
        obtain ⟨hl1, -⟩ := tick_lanes_manual s i hr
        have hml : manual_lane s.l1 i.rev_l1 i.now = s.l1 := by
          rw [hr1]
          exact manual_lane_no_rev _ _ (by simp [hm])
        have hstop : (tick s i).l1 = lane_stop_task { s.l1 with prev_in_present := i.l1_in } := by
          rw [hl1, hml, stop_feed_keep _ (by simp [hm])]
          exact lane_process_deadline _ _ _ hm hdr
        refine ⟨?_, fun _ => ⟨?_, ?_⟩⟩
        · rw [hstop]
          simp [lane_stop_task]
        · rw [hstop]
          rfl
        · rw [hstop]
          rfl
    · -- lane 1's own button held: preempted into ManualReverse
      have hr : (i.rev_l1 || i.rev_l2) = true := by rw [hr1]; rfl
      obtain ⟨hl1, -⟩ := tick_lanes_manual s i hr
      have hmm : (manual_lane s.l1 i.rev_l1 i.now).mode = TaskMode.manual := by
        rw [hr1]
        exact manual_lane_rev_mode _ _ (by simp [hm])
      have hS : (stop_feed (manual_lane s.l1 i.rev_l1 i.now)).mode = TaskMode.manual := by
        rw [stop_feed_keep _ (by simp [hmm]), hmm]
      refine ⟨?_, fun hfalse => ?_⟩
      · rw [hl1, lane_process_mode_keep _ _ _ (by simp [hS])]
        simp [hS]
      · exact Bool.noConfusion hfalse
  · intro hm hd
    have hdr : time_reached s.l2.autoload_deadline i.now = true := by
      rw [time_reached_eq]
      exact decide_eq_true hd
    cases hr2v : i.rev_l2
    · cases hr1 : i.rev_l1
      · have hr : (i.rev_l1 || i.rev_l2) = false := by rw [hr1, hr2v]; rfl
        obtain ⟨-, hl2⟩ := tick_lanes_auto s i hr
        have hauto : (auto_phase (manual_phase (pot_phase s i) i) i).l2 = s.l2 := by
          rw [auto_phase_l2, p6, hr2v,
            manual_lane_no_rev _ _ (by simp [hm]),
            autoload_trigger_not_idle _ _ _ _ (by simp [hm]),
            feed_apply_other _ _ _ _ (by simp [hm]) (by simp [hm]), ite_self]
        have hstop : (tick s i).l2 = lane_stop_task { s.l2 with prev_in_present := i.l2_in } := by
          rw [hl2, hauto]
          exact lane_process_deadline _ _ _ hm hdr
        refine ⟨?_, fun _ => ⟨?_, ?_⟩⟩
        · rw [hstop]
          simp [lane_stop_task]
        · rw [hstop]
          rfl
        · rw [hstop]
          rfl
      · have hr : (i.rev_l1 || i.rev_l2) = true := by rw [hr1]; rfl
        obtain ⟨-, hl2⟩ := tick_lanes_manual s i hr
        have hml : manual_lane s.l2 i.rev_l2 i.now = s.l2 := by
          rw [hr2v]
          exact manual_lane_no_rev _ _ (by simp [hm])
        have hstop : (tick s i).l2 = lane_stop_task { s.l2 with prev_in_present := i.l2_in } := by
          rw [hl2, hml, stop_feed_keep _ (by simp [hm])]
          exact lane_process_deadline _ _ _ hm hdr
        refine ⟨?_, fun _ => ⟨?_, ?_⟩⟩
        · rw [hstop]
          simp [lane_stop_task]
        · rw [hstop]
          rfl
        · rw [hstop]
          rfl
    · have hr : (i.rev_l1 || i.rev_l2) = true := by rw [hr2v]; simp
      obtain ⟨-, hl2⟩ := tick_lanes_manual s i hr
      have hmm : (manual_lane s.l2 i.rev_l2 i.now).mode = TaskMode.manual := by
        rw [hr2v]
        exact manual_lane_rev_mode _ _ (by simp [hm])
      have hS : (stop_feed (manual_lane s.l2 i.rev_l2 i.now)).mode = TaskMode.manual := by
        rw [stop_feed_keep _ (by simp [hmm]), hmm]
      refine ⟨?_, fun hfalse => ?_⟩
      · rw [hl2, lane_process_mode_keep _ _ _ (by simp [hS])]
        simp [hS]
      · exact Bool.noConfusion hfalse

/-- Claim C6 (amended) witness: the autoload started at t=0 is Idle with its
motor disabled after the tick processed at t = 6000000 = its deadline. -/
theorem C6_autoload_bounded_amended_witness :
    s_auto.l1.mode = TaskMode.autoload
    ∧ s_auto.l1.autoload_deadline ≤ inp_m.now
    ∧ inp_m.rev_l1 = false
    ∧ (tick s_auto inp_m).l1.mode ≠ TaskMode.autoload
    ∧ (tick s_auto inp_m).l1.mode = TaskMode.idle
    ∧ (tick s_auto inp_m).l1.motor_enabled = false :=
  ⟨by decide, by decide, by decide,
    ((C6_autoload_bounded_amended s_auto inp_m).1 (by decide) (by decide)).1,
    (((C6_autoload_bounded_amended s_auto inp_m).1 (by decide) (by decide)).2 (by decide)).1,
    (((C6_autoload_bounded_amended s_auto inp_m).1 (by decide) (by decide)).2 (by decide)).2⟩

theorem din_update_eq (d : Din) (r : Bool) (t : Nat) :
    din_update d r t =
      { stable :=
          if (r != d.stable) = true
             ∧ (t : Int) - (((if (r != d.last_raw) = true then t else d.last_edge) : Nat) : Int)
                 ≥ (DEBOUNCE_US : Int)
          then r else d.stable
        last_raw := r
        last_edge := if (r != d.last_raw) = true then t else d.last_edge } := by
  simp only [din_update]
  by_cases hc : (r != d.last_raw) = true
  · simp only [if_pos hc]
    split_ifs <;> rfl
  · have he : r = d.last_raw := by
      simp only [bne_iff_ne, ne_eq, not_not] at hc
      exact hc
    simp only [if_neg hc]
    rw [he]
    split_ifs <;> rfl

theorem din_run_append (d : Din) (a b : List (Bool × Nat)) :
    din_run d (a ++ b) = din_run (din_run d a) b := by
  unfold din_run
  exact List.foldl_append _ _ _ _

theorem short_ok_stable (b : Bool) :
    ∀ (l : List (Bool × Nat)) (d : Din), d.stable = b → short_ok b d l = true →
      (din_run d l).stable = b := by
  intro l
  induction l with
  | nil => exact fun d hb _ => hb
  | cons p q ih =>
      rintro d hb h
      obtain ⟨r, t⟩ := p
      simp only [short_ok, Bool.and_eq_true] at h
      obtain ⟨h1, h2⟩ := h
      have hst : (din_update d r t).stable = b := by
        rw [din_update_eq]
        by_cases hrb : r = b
        · split_ifs <;> first | exact hrb | exact hb
        · have hlt : (t : Int)
              - (((if (r != d.last_raw) = true then t else d.last_edge) : Nat) : Int)
              < (DEBOUNCE_US : Int) := by
            rcases Bool.or_eq_true_iff.mp h1 with hcase | hcase
            · exact absurd (by simpa using hcase) hrb
            · have hdec := of_decide_eq_true hcase
              rw [din_update_eq] at hdec
              exact hdec
          by_cases hraw : (r != d.last_raw) = true
          · rw [if_pos hraw] at hlt ⊢
            rw [if_neg (fun hc => absurd hc.2 (not_le.mpr hlt))]
            exact hb
          · rw [if_neg hraw] at hlt ⊢
            rw [if_neg (fun hc => absurd hc.2 (not_le.mpr hlt))]
            exact hb
      have hstep : din_run d ((r, t) :: q) = din_run (din_update d r t) q := rfl
      rw [hstep]
      exact ih (din_update d r t) hst h2

theorem din_run_hold (c : Bool) (e : Nat) :
    ∀ (l : List (Bool × Nat)) (d : Din), d.last_raw = c → d.last_edge = e →
      (∀ x ∈ l, x.1 = c) →
      ((din_run d l).last_raw = c
       ∧ (din_run d l).last_edge = e
       ∧ (d.stable = c → (din_run d l).stable = c)
       ∧ (d.stable ≠ c →
           ((∃ x ∈ l, e + DEBOUNCE_US ≤ x.2) → (din_run d l).stable = c)
           ∧ ((∀ x ∈ l, x.2 < e + DEBOUNCE_US) → (din_run d l).stable = d.stable))) := by
  intro l
  induction l with
  | nil =>
      intro d h1 h2 _
      exact ⟨h1, h2, fun h => h, fun _ => ⟨fun hex => absurd hex (by simp), fun _ => rfl⟩⟩
  | cons p q ih =>
      intro d h1 h2 hall
      obtain ⟨r, t⟩ := p
      have hr : r = c := hall (r, t) (List.mem_cons_self _ _)
      subst hr
      have hallq : ∀ x ∈ q, x.1 = r := fun x hx => hall x (List.mem_cons_of_mem _ hx)
      have hupd : din_update d r t =
          { stable := if (r != d.stable) = true
                         ∧ (t : Int) - (e : Int) ≥ (DEBOUNCE_US : Int)
                      then r else d.stable
            last_raw := r
            last_edge := e } := by
        rw [din_update_eq, h1]
        simp [bne_self_eq_false, h2]
      have hstep : din_run d ((r, t) :: q) = din_run (din_update d r t) q := rfl
      rw [hstep, hupd]
      by_cases hst : d.stable = r
      · have hcf : ¬((r != d.stable) = true
            ∧ (t : Int) - (e : Int) ≥ (DEBOUNCE_US : Int)) := by
          rintro ⟨hx, -⟩
          rw [hst] at hx
          simp at hx
        rw [if_neg hcf]
        obtain ⟨ih1, ih2, ih3, -⟩ :=
          ih { stable := d.stable, last_raw := r, last_edge := e } rfl rfl hallq
        exact ⟨ih1, ih2, fun _ => ih3 hst, fun hne => absurd hst hne⟩
      · have hct : (r != d.stable) = true := by
          cases r <;> cases hsv : d.stable <;> simp_all
        by_cases hw : e + DEBOUNCE_US ≤ t
        · have hcond : (r != d.stable) = true
              ∧ (t : Int) - (e : Int) ≥ (DEBOUNCE_US : Int) := by
            refine ⟨hct, ?_⟩
            simp only [DEBOUNCE_US] at hw ⊢
            omega
          rw [if_pos hcond]
          obtain ⟨ih1, ih2, ih3, -⟩ :=
            ih { stable := r, last_raw := r, last_edge := e } rfl rfl hallq
          have hfin := ih3 rfl
          refine ⟨ih1, ih2, fun _ => hfin, fun _ => ⟨fun _ => hfin, fun hforall => ?_⟩⟩
          have := hforall (r, t) (List.mem_cons_self _ _)
          omega
        · have hcf : ¬((r != d.stable) = true
              ∧ (t : Int) - (e : Int) ≥ (DEBOUNCE_US : Int)) := by
            rintro ⟨-, hge⟩
            simp only [DEBOUNCE_US] at hge hw
            omega
          rw [if_neg hcf]
          obtain ⟨ih1, ih2, -, ih4⟩ :=
            ih { stable := d.stable, last_raw := r, last_edge := e } rfl rfl hallq
          have ih4n := ih4 (fun hc => hst hc)
          refine ⟨ih1, ih2, fun hc => absurd hc hst, fun _ => ⟨?_, ?_⟩⟩
          · rintro ⟨x, hx, hxw⟩
            rcases List.mem_cons.mp hx with hhead | htail
            · rw [hhead] at hxw
              exact absurd hxw hw
            · exact ih4n.1 ⟨x, htail, hxw⟩
          · intro hforall
            exact ih4n.2 (fun x hx => hforall x (List.mem_cons_of_mem _ hx))

/-- Claim C7: debounce stability.  Part 1: over any sample sequence in which
every sample disagreeing with the committed value is still within the
debounce window of the last raw change (`short_ok`: all transitions held
shorter than the window), the committed value never changes.  Part 2: for a
transition to the opposite value at time `t1` whose new raw value is then
held: the committed value is still the old one on every prefix whose samples
all lie before `t1 + DEBOUNCE_US`; once flipped it stays flipped (so it flips
at most once); and if some later sample lies at or after `t1 + DEBOUNCE_US`,
the committed value has flipped by the end: exactly one flip, at or after
window expiry. -/
theorem C7_debounce_stability (d : Din) :
    (∀ l : List (Bool × Nat), short_ok d.stable d l = true →
        (din_run d l).stable = d.stable)
    ∧ (∀ (t1 : Nat) (rest : List (Bool × Nat)),
        d.last_raw = d.stable →
        (∀ x ∈ rest, x.1 = !d.stable) →
        ((∀ p q, (!d.stable, t1) :: rest = p ++ q →
            (∀ x ∈ p, x.2 < t1 + DEBOUNCE_US) → (din_run d p).stable = d.stable)
         ∧ (∀ p q, (!d.stable, t1) :: rest = p ++ q →
            (din_run d p).stable = !d.stable →
            (din_run d ((!d.stable, t1) :: rest)).stable = !d.stable)
         ∧ ((∃ x ∈ rest, t1 + DEBOUNCE_US ≤ x.2) →
            (din_run d ((!d.stable, t1) :: rest)).stable = !d.stable))) := by
  constructor
  · exact fun l h => short_ok_stable d.stable l d rfl h
  · intro t1 rest hlr hall
    have hne : d.stable ≠ !d.stable := by cases d.stable <;> simp
    have hfirst : din_update d (!d.stable) t1
        = { stable := d.stable, last_raw := !d.stable, last_edge := t1 } := by
      rw [din_update_eq]
      have hbt : ((!d.stable) != d.last_raw) = true := by
        rw [hlr]
        cases d.stable <;> rfl
      rw [if_pos hbt]
      rw [if_neg (fun hc => by
        obtain ⟨-, hge⟩ := hc
        simp only [DEBOUNCE_US] at hge
        omega)]
    have hstep : ∀ p2 : List (Bool × Nat),
        din_run d ((!d.stable, t1) :: p2)
          = din_run { stable := d.stable, last_raw := !d.stable, last_edge := t1 } p2 := by
      intro p2
      show din_run (din_update d (!d.stable) t1) p2 = _
      rw [hfirst]
    refine ⟨?_, ?_, ?_⟩
    · intro p q hpq hp
      cases p with
      | nil => rfl
      | cons x p2 =>
          injection hpq with hx hrest
          subst hx
          rw [hstep p2]
          have hallp2 : ∀ y ∈ p2, y.1 = !d.stable := by
            intro y hy
            refine hall y ?_
            rw [hrest]
            exact List.mem_append_left _ hy
          obtain ⟨-, -, -, ih4⟩ := din_run_hold (!d.stable) t1 p2
            { stable := d.stable, last_raw := !d.stable, last_edge := t1 } rfl rfl hallp2
          exact (ih4 hne).2 (fun y hy => hp y (List.mem_cons_of_mem _ hy))
    · intro p q hpq hstab
      cases p with
      | nil => exact absurd hstab hne
      | cons x p2 =>
          injection hpq with hx hrest
          subst hx
          rw [hstep p2] at hstab
          have hallp2 : ∀ y ∈ p2, y.1 = !d.stable := by
            intro y hy
            refine hall y ?_
            rw [hrest]
            exact List.mem_append_left _ hy
          have hallq2 : ∀ y ∈ q, y.1 = !d.stable := by
            intro y hy
            refine hall y ?_
            rw [hrest]
            exact List.mem_append_right _ hy
          obtain ⟨e1, e2, -, -⟩ := din_run_hold (!d.stable) t1 p2
            { stable := d.stable, last_raw := !d.stable, last_edge := t1 } rfl rfl hallp2
          rw [hrest]
          rw [show ((!d.stable, t1) :: p2.append q)
              = ((!d.stable, t1) :: p2) ++ q from rfl, din_run_append, hstep p2]
          obtain ⟨-, -, f3, -⟩ := din_run_hold (!d.stable) t1 q
            (din_run { stable := d.stable, last_raw := !d.stable, last_edge := t1 } p2)
            e1 e2 hallq2
          exact f3 hstab
    · intro hex
      rw [hstep rest]
      obtain ⟨-, -, -, ih4⟩ := din_run_hold (!d.stable) t1 rest
        { stable := d.stable, last_raw := !d.stable, last_edge := t1 } rfl rfl hall
      exact (ih4 hne).1 hex

/-- Claim C7 witness: a pulse shorter than the window (5 ms) leaves the
committed value `true`; a transition to `false` held for the full window
flips the committed value at the sample at t = 10000. -/
theorem C7_debounce_stability_witness :
    short_ok (din_init true 0).stable (din_init true 0)
        [(false, 5000), (true, 6000), (false, 20000)] = true
    ∧ (din_run (din_init true 0)
        [(false, 5000), (true, 6000), (false, 20000)]).stable = (din_init true 0).stable
    ∧ (din_init true 0).last_raw = (din_init true 0).stable
    ∧ (∀ x ∈ [((false, 10000) : Bool × Nat)], x.1 = !(din_init true 0).stable)
    ∧ (∃ x ∈ [((false, 10000) : Bool × Nat)], 0 + DEBOUNCE_US ≤ x.2)
    ∧ (din_run (din_init true 0)
        [(!(din_init true 0).stable, 0), (false, 10000)]).stable
        = !(din_init true 0).stable :=
  ⟨by decide,
    (C7_debounce_stability (din_init true 0)).1 _ (by decide),
    by decide, by decide, by decide,
    ((C7_debounce_stability (din_init true 0)).2 0 [((false, 10000) : Bool × Nat)]
      (by decide) (by decide)).2.2 (by decide)⟩

/-- Claim C5 witness: the concrete swap at t=600000 and a fully-enabled tick
at t=700000 inside the window. -/
theorem C5_cooldown_enforcement_witness :
    (tick s2_demo inp_c).active_lane ≠ s2_demo.active_lane
    ∧ (∀ j ∈ [inp_n], j.now < inp_c.now + SWAP_COOLDOWN_US)
    ∧ (run_ticks (tick s2_demo inp_c) [inp_n]).active_lane
        = (tick s2_demo inp_c).active_lane :=
  ⟨by decide, by decide,
    C5_cooldown_enforcement s2_demo inp_c [inp_n] (by decide) (by decide)⟩
